import Mathlib

/-!
Verification development for the Jumping Sumo intercepting proxy
(`proxy.py`, `sumo-proxy.py`).  The Python sources are shallowly embedded:
pure data transformations become Lean functions, the stateful loops become
explicit folds over observation sequences, and raised exceptions become
`Except` error values.  Python 2 byte strings are modelled by `String`
(one `Char` per byte), Python integers by `Int`, and the `json` module by a
parser/printer for the flat objects (string keys, integer or string values)
that the init handshake actually carries, with `json.dumps`'s Python 2
default separators.  Field order of a parsed object is modelled as parse
order.
-/

namespace SumoProxy

/-- Opening brace character of a JSON object. -/
def lbrace : Char := Char.ofNat 123

/-- Closing brace character of a JSON object. -/
def rbrace : Char := Char.ofNat 125

/-- JSON values occurring in the init handshake payload: integers and
strings. -/
inductive JVal where
  | int (n : Int)
  | str (s : String)
deriving DecidableEq

/-- A parsed JSON object: an ordered list of key/value fields. -/
abbrev JObj := List (String × JVal)

/-- First value bound to key `k`, as Python `dict` lookup. -/
def lookupField : JObj → String → Option JVal
  | [], _ => none
  | kv :: rest, k => if kv.1 = k then some kv.2 else lookupField rest k

/-- Replace the value bound to key `k` (Python `json_data[k] = v` on an
existing key). -/
def setField : JObj → String → JVal → JObj
  | [], _, _ => []
  | kv :: rest, k, v => (if kv.1 = k then (k, v) else kv) :: setField rest k v

/-- Insert a field while parsing: duplicate keys overwrite, as in a Python
`dict`. -/
def insertField (o : JObj) (k : String) (v : JVal) : JObj :=
  match lookupField o k with
  | some _ => setField o k v
  | none => o ++ [(k, v)]

/-- Skip JSON whitespace. -/
def skipWs : List Char → List Char
  | [] => []
  | c :: cs => if c = ' ' || c = '\t' || c = '\n' || c = '\r' then skipWs cs else c :: cs

/-- Read a string literal body up to the closing quote (escape sequences are
outside the modelled fragment). -/
def takeStr : List Char → Option (List Char × List Char)
  | [] => none
  | c :: cs =>
    if c = '"' then some ([], cs)
    else if c = '\\' then none
    else
      match takeStr cs with
      | some (s, r) => some (c :: s, r)
      | none => none

/-- Split a leading run of decimal digits. -/
def takeDigits : List Char → List Char × List Char
  | [] => ([], [])
  | c :: cs =>
    if c.isDigit then
      let p := takeDigits cs
      (c :: p.1, p.2)
    else ([], c :: cs)

/-- Numeric value of a digit run. -/
def digitsVal (ds : List Char) : Nat :=
  ds.foldl (fun a c => 10 * a + (c.toNat - 48)) 0

/-- Parse an optionally negated integer literal. -/
def parseIntLit (cs : List Char) : Option (Int × List Char) :=
  match cs with
  | [] => none
  | c :: rest =>
    if c = '-' then
      match takeDigits rest with
      | ([], _) => none
      | (ds, r) => some (-(digitsVal ds : Int), r)
    else
      match takeDigits cs with
      | ([], _) => none
      | (ds, r) => some ((digitsVal ds : Int), r)

/-- Parse a JSON value of the modelled fragment. -/
def parseVal (cs : List Char) : Option (JVal × List Char) :=
  match skipWs cs with
  | [] => none
  | c :: rest =>
    if c = '"' then
      match takeStr rest with
      | some (s, r) => some (JVal.str (String.mk s), r)
      | none => none
    else
      match parseIntLit (c :: rest) with
      | some (n, r) => some (JVal.int n, r)
      | none => none

/-- Parse the comma-separated fields of an object body; `fuel` bounds the
number of fields. -/
def parseFields : Nat → JObj → List Char → Option (JObj × List Char)
  | 0, _, _ => none
  | Nat.succ fuel, acc, cs =>
    match skipWs cs with
    | [] => none
    | c :: rest =>
      if c = '"' then
        match takeStr rest with
        | none => none
        | some (k, r1) =>
          match skipWs r1 with
          | [] => none
          | c2 :: r2 =>
            if c2 = ':' then
              match parseVal r2 with
              | none => none
              | some (v, r3) =>
                let acc2 := insertField acc (String.mk k) v
                match skipWs r3 with
                | [] => none
                | c3 :: r4 =>
                  if c3 = ',' then parseFields fuel acc2 r4
                  else if c3 = rbrace then some (acc2, r4)
                  else none
            else none
      else none

/-- Parse one JSON object, returning the remainder of the input. -/
def parseObjCore (cs : List Char) : Option (JObj × List Char) :=
  match skipWs cs with
  | [] => none
  | c :: rest =>
    if c = lbrace then
      match skipWs rest with
      | [] => none
      | c2 :: r2 =>
        if c2 = rbrace then some ([], r2)
        else parseFields (rest.length + 1) [] rest
    else none

/-- Model of `json.loads` on the handshake fragment: the whole input must be
one object (trailing whitespace allowed). -/
def loadsL (cs : List Char) : Option JObj :=
  match parseObjCore cs with
  | some (o, rest) => if skipWs rest = [] then some o else none
  | none => none

/-- Serialize one value as Python 2 `json.dumps` does. -/
def dumpVal : JVal → String
  | JVal.int n => toString n
  | JVal.str s => "\"" ++ s ++ "\""

/-- Serialize one field with `json.dumps`'s default `": "` separator. -/
def dumpField (kv : String × JVal) : String :=
  "\"" ++ kv.1 ++ "\": " ++ dumpVal kv.2

/-- Model of Python 2 `json.dumps` with default separators `", "` and
`": "`. -/
def dumps (o : JObj) : String :=
  String.singleton lbrace ++ String.intercalate (", ") (o.map dumpField) ++
    String.singleton rbrace

/-- Key of the client-announced device-to-client port in the init request. -/
def d2cPortKey : String := "d2c_port"

/-- Key of the device-announced client-to-device port in the init
response. -/
def c2dPortKey : String := "c2d_port"

/-- The NUL byte terminating each handshake payload. -/
def nulStr : String := String.singleton (Char.ofNat 0)

/-- Proxy d2c port derivation, from `prox_d2c_port = client_d2c_port + 1`
(`proxy.py` line 128). -/
def deriveProxD2c (clientD2cPort : Int) : Int := clientD2cPort + 1

/-- Proxy c2d port derivation, from `prox_c2d_port = sumo_c2d_port - 1`
(`proxy.py` line 154). -/
def deriveProxC2d (sumoC2dPort : Int) : Int := sumoC2dPort - 1

/-- Request leg of `InitHandler.handle` (`proxy.py` lines 119-139): strip the
final byte, parse, read `d2c_port`, overwrite it with the derived proxy port,
re-serialize and re-append the NUL.  Returns the client's announced port and
the bytes forwarded to the Sumo; `none` models the handler raising (missing
key, non-integer port, or unparsable payload). -/
def rewriteInitRequest (data : String) : Option (Int × String) :=
  match loadsL data.toList.dropLast with
  | none => none
  | some obj =>
    match lookupField obj d2cPortKey with
    | some (JVal.int clientD2c) =>
      some (clientD2c,
        dumps (setField obj d2cPortKey (JVal.int (deriveProxD2c clientD2c))) ++ nulStr)
    | _ => none

/-- Response leg of `InitHandler.handle` (`proxy.py` lines 143-163): same
shape as the request leg but on the `c2d_port` field with the `- 1`
derivation. -/
def rewriteInitResponse (data : String) : Option (Int × String) :=
  match loadsL data.toList.dropLast with
  | none => none
  | some obj =>
    match lookupField obj c2dPortKey with
    | some (JVal.int sumoC2d) =>
      some (sumoC2d,
        dumps (setField obj c2dPortKey (JVal.int (deriveProxC2d sumoC2d))) ++ nulStr)
    | _ => none

/-- One datagram handed to `socket.sendto`. -/
structure Send where
  payload : String
  destIp : String
  destPort : Int
deriving DecidableEq

/-- Fixed observer sink port of `sumo-proxy.py` (line 14). -/
def REPEAT_PORT : Int := 65432

/-- Fixed observer sink host of `sumo-proxy.py` (line 17). -/
def REPEAT_HOST : String := "127.0.0.1"

/-- Shared-port relay handler of `sumo-proxy.py` (`Handler.handle`, lines
165-181): classify by source address against the recorded client address,
forward verbatim to the counterpart, then mirror a direction-tagged copy to
the fixed sink.  The `data_queue.append` the handler also performs is
modelled by the arrival streams of the watchdog section. -/
def sharedPortHandle (clientIp sumoIp : String) (c2dPort : Int)
    (srcIp : String) (data : String) : List Send :=
  if srcIp = clientIp then
    [⟨data, sumoIp, c2dPort⟩, ⟨">" ++ data, REPEAT_HOST, REPEAT_PORT⟩]
  else
    [⟨data, clientIp, c2dPort⟩, ⟨"<" ++ data, REPEAT_HOST, REPEAT_PORT⟩]

/-- Client-to-device relay handler of `proxy.py` (`C2DHandler.handle`, lines
207-214): forward verbatim to the Sumo, then send a `'>'`-tagged copy to
every configured repeater. -/
def c2dHandle (sumoIp : String) (sumoC2dPort : Int)
    (repeaters : List (String × Int)) (data : String) : List Send :=
  ⟨data, sumoIp, sumoC2dPort⟩ :: repeaters.map (fun t => ⟨">" ++ data, t.1, t.2⟩)

/-- Device-to-client relay handler of `proxy.py` (`D2CHandler.handle`, lines
220-227): forward verbatim to the client, then send a `'<'`-tagged copy to
every configured repeater. -/
def d2cHandle (clientIp : String) (clientD2cPort : Int)
    (repeaters : List (String × Int)) (data : String) : List Send :=
  ⟨data, clientIp, clientD2cPort⟩ :: repeaters.map (fun t => ⟨"<" ++ data, t.1, t.2⟩)

/-- Watchdog flag (`proxy.py` lines 199, 239-246).  `arr i` says whether some
handler appended to the one-slot `data_queue` during the sleep interval
between check `i` and check `i + 1`; the deque starts non-empty
(`deque([True], maxlen=1)`) and every check pops it empty.  The result is
the flag the check numbered `k` observes (check `0` runs immediately after
the listeners start, before the first sleep). -/
def dequeNonempty (arr : Nat → Bool) : Nat → Bool
  | 0 => true
  | k + 1 => arr k

/-- Whether the watchdog loop raises its no-comms exception at check `k`,
given per-interval arrival indicators for the two relay directions. -/
def watchdogFailsAt (arrC2d arrD2c : Nat → Bool) (k : Nat) : Bool :=
  !dequeNonempty (fun i => arrC2d i || arrD2c i) k

/-- Modelled from the spec: the spec's watchdog failure condition, "declares
the session failed if and only if no datagram has been received in either
direction within `maxSilence` (one check interval) of the most recent
check".  The window of check `k + 1` is interval `k`; the window of check
`0` precedes the session, so no datagram has been received in it. -/
def specWatchdogFailsAt (arrC2d arrD2c : Nat → Bool) (k : Nat) : Bool :=
  match k with
  | 0 => true
  | k + 1 => !(arrC2d k || arrD2c k)

/-- Errors raised by the pipeline, one constructor per `raise` site. -/
inductive ProxyError where
  | noSumoFound (waitSecs : Nat)
  | zeroconfCrashed
  | announceFailed
  | noInit (waitSecs : Nat)
  | anotherClientConnected
  | noComms (commsSecs : Nat)
deriving DecidableEq

/-- One pass of the `get_first_sumo` polling loop condition: service
discoveries delivered since the previous pass, whether the browser thread is
alive, and the elapsed whole seconds since the loop started. -/
structure PollObs where
  newFinds : List (String × Int)
  alive : Bool
  elapsedSec : Nat
deriving DecidableEq

/-- Discovery timeout of `get_first_sumo` (`wait_time = 30`, `proxy.py`
line 70). -/
def getFirstSumoWaitTime : Nat := 30

/-- The `while len(connection_info) < 2` loop of `get_first_sumo`
(`proxy.py` lines 72-82): exit with the first discovered (ip, port) pair as
soon as one exists, otherwise raise on a dead browser, then on timeout,
otherwise keep polling.  `none` means the observation sequence ended with the
loop still waiting. -/
def locLoop : List (String × Int) → List PollObs →
    Option (Except ProxyError (String × Int))
  | _, [] => none
  | acc, o :: rest =>
    match acc ++ o.newFinds with
    | f :: _ => some (Except.ok f)
    | [] =>
      if o.alive = false then some (Except.error ProxyError.zeroconfCrashed)
      else if getFirstSumoWaitTime < o.elapsedSec then
        some (Except.error (ProxyError.noSumoFound getFirstSumoWaitTime))
      else locLoop [] rest

/-- Device locator `get_first_sumo` as a fold over its poll observations. -/
def getFirstSumo (obs : List PollObs) : Option (Except ProxyError (String × Int)) :=
  locLoop [] obs

/-- The negotiated port quadruple, in the order `proxy_init` returns it
(`proxy.py` lines 165-170). -/
structure NegotiatedPorts where
  sumoC2dPort : Int
  clientD2cPort : Int
  proxC2dPort : Int
  proxD2cPort : Int
deriving DecidableEq

/-- One accepted init connection: the client's address, its request bytes and
the device's response bytes. -/
structure InitScenario where
  clientIp : String
  request : String
  deviceResponse : String
deriving DecidableEq

/-- Externally visible resource actions of `proxy_init`. -/
inductive InitAction where
  | bindTcp (port : Int)
  | acceptConn (clientIp : String)
  | connectSumo (ip : String) (port : Int)
  | sendToSumo (data : String)
  | sendToClient (data : String)
  | shutdownInitServer
  | closeInitServer
deriving DecidableEq

/-- `proxy_init` (`proxy.py` lines 103-192).  The scenario is `none` when no
client connects within the 30 second join; then the function raises the
no-init exception with the TCP server still bound and serving (`tidy` runs
only from inside `handle`).  With a connection, the handler rewrites the
request, relays it, rewrites the response, returns it, and only then shuts
the server down; a payload the handler cannot process kills the handler
thread, so the join still times out. -/
def proxyInit (sumoIp : String) (initPort : Int) (scenario : Option InitScenario) :
    Except ProxyError (String × NegotiatedPorts) × List InitAction :=
  match scenario with
  | none => (Except.error (ProxyError.noInit 30), [InitAction.bindTcp initPort])
  | some sc =>
    match rewriteInitRequest sc.request with
    | none =>
      (Except.error (ProxyError.noInit 30),
        [InitAction.bindTcp initPort, InitAction.acceptConn sc.clientIp])
    | some (clientD2c, fwdReq) =>
      match rewriteInitResponse sc.deviceResponse with
      | none =>
        (Except.error (ProxyError.noInit 30),
          [InitAction.bindTcp initPort, InitAction.acceptConn sc.clientIp,
            InitAction.connectSumo sumoIp initPort, InitAction.sendToSumo fwdReq])
      | some (sumoC2d, fwdResp) =>
        (Except.ok (sc.clientIp,
            ⟨sumoC2d, clientD2c, deriveProxC2d sumoC2d, deriveProxD2c clientD2c⟩),
          [InitAction.bindTcp initPort, InitAction.acceptConn sc.clientIp,
            InitAction.connectSumo sumoIp initPort, InitAction.sendToSumo fwdReq,
            InitAction.sendToClient fwdResp, InitAction.shutdownInitServer,
            InitAction.closeInitServer])

/-- The arguments `start` hands to `proxy_session` when it starts the relay
(`proxy.py` line 272). -/
structure SessionInvocation where
  clientIp : String
  sumoIp : String
  ports : NegotiatedPorts
deriving DecidableEq

/-- Environment of one `start` run: the discovery observations, whether
`announce_proxy_sumo` succeeds, and the init scenario. -/
structure StartEnv where
  locateObs : List PollObs
  announceOk : Bool
  initScenario : Option InitScenario

/-- `SumoProxy.start` (`proxy.py` lines 248-273): locator, announcer, init,
the `ports[0] == 0` busy check, then the session.  `some (.ok inv)` records
that `proxy_session` was invoked with `inv`; any `some (.error e)` run never
starts the relay; `none` means a stage is still blocked. -/
def start (env : StartEnv) : Option (Except ProxyError SessionInvocation) :=
  match getFirstSumo env.locateObs with
  | none => none
  | some (Except.error e) => some (Except.error e)
  | some (Except.ok (sumoIp, initPort)) =>
    if env.announceOk then
      match (proxyInit sumoIp initPort env.initScenario).1 with
      | Except.error e => some (Except.error e)
      | Except.ok (clientIp, ports) =>
        if ports.sumoC2dPort = 0 then
          some (Except.error ProxyError.anotherClientConnected)
        else some (Except.ok ⟨clientIp, sumoIp, ports⟩)
    else some (Except.error ProxyError.announceFailed)

/-- One full run of the pipeline as `proc_wrapper` sees it.  `proxy_session`
never returns normally: once the relay is started, the run ends with whatever
exception eventually ends the session (`sessionFate`, e.g. the watchdog's
no-comms error). -/
def runOnce (env : StartEnv) (sessionFate : ProxyError) :
    Option (Except ProxyError Unit) :=
  match start env with
  | none => none
  | some (Except.error e) => some (Except.error e)
  | some (Except.ok _) => some (Except.error sessionFate)

/-- Result of `proc_wrapper`'s bare `except Exception` clause. -/
inductive WrapperOutcome where
  | finished
  | caught (e : ProxyError)
deriving DecidableEq

/-- `proc_wrapper` (`proxy.py` lines 276-285): run the proxy and catch every
exception, printing it; nothing propagates. -/
def procWrapper (env : StartEnv) (sessionFate : ProxyError) :
    Option WrapperOutcome :=
  match runOnce env sessionFate with
  | none => none
  | some (Except.ok _) => some WrapperOutcome.finished
  | some (Except.error e) => some (WrapperOutcome.caught e)

/-- What the `while True` restart loop does after one child run ends. -/
inductive LoopDecision where
  | restartAfterDelay
  | exitLoop
deriving DecidableEq

/-- Body of the restart loop (`proxy.py` lines 292-298): whatever the run's
outcome, sleep one second and start a fresh session; no branch leaves the
loop. -/
def mainLoopStep (_w : WrapperOutcome) : LoopDecision :=
  LoopDecision.restartAfterDelay

/-- Helper: after overwriting key `k`, looking up `k` yields the new value,
provided `k` was present. -/
theorem lookupField_setField_self (o : JObj) (k : String) (v w : JVal)
    (h : lookupField o k = some w) :
    lookupField (setField o k v) k = some v := by
  induction o with
  | nil => simp [lookupField] at h
  | cons kv rest ih =>
    by_cases hk : kv.1 = k
    · simp [lookupField, setField, hk]
    · simp only [lookupField, setField, hk, if_false, if_neg hk] at h ⊢
      exact ih h

/-- Helper: overwriting key `k` leaves every other key's binding
untouched. -/
theorem lookupField_setField_ne (o : JObj) (k k2 : String) (v : JVal)
    (h : k2 ≠ k) :
    lookupField (setField o k v) k2 = lookupField o k2 := by
  induction o with
  | nil => rfl
  | cons kv rest ih =>
    by_cases hk : kv.1 = k
    · have hne : ¬(k = k2) := fun hc => h hc.symm
      simp [lookupField, setField, hk, hne, ih]
    · simp [lookupField, setField, hk, ih]

/-- Helper: prepending a one-byte marker never yields the original
datagram. -/
theorem marker_append_ne (m s : String) (hm : m.length = 1) : m ++ s ≠ s := by
  intro h
  have hl := congrArg String.length h
  rw [String.length_append, hm] at hl
  omega

/-- Helper: the client-to-device marker changes the datagram. -/
theorem gt_marker_append_ne (s : String) : ">" ++ s ≠ s :=
  marker_append_ne (">") s rfl

/-- Helper: the device-to-client marker changes the datagram. -/
theorem lt_marker_append_ne (s : String) : "<" ++ s ≠ s :=
  marker_append_ne ("<") s rfl

/-- Helper: in a duplicate-free list, a member is counted exactly once. -/
theorem countP_eq_one_of_nodup_mem {α : Type} [DecidableEq α]
    (l : List α) (t : α) (hnd : l.Nodup) (hmem : t ∈ l) :
    l.countP (fun x => decide (x = t)) = 1 := by
  induction l with
  | nil => cases hmem
  | cons a l ih =>
    rw [List.countP_cons]
    rcases List.mem_cons.mp hmem with h | h
    · subst h
      have ha : t ∉ l := (List.nodup_cons.mp hnd).1
      have h0 : l.countP (fun x => decide (x = t)) = 0 :=
        List.countP_eq_zero.mpr (fun x hx => by
          simp only [decide_eq_true_eq]
          intro hxt
          exact ha (hxt ▸ hx))
      simp [h0]
    · have hne : a ≠ t := by
        rintro rfl
        exact (List.nodup_cons.mp hnd).1 h
      have hl := ih (List.nodup_cons.mp hnd).2 h
      simp [hl, hne]

/-- C1.  CORRECTED.  The rewrite is field-local on the parsed payload, not
byte-local on the wire bytes: whenever `InitHandler.handle` succeeds, the
parsed object of the forwarded payload is exactly the parsed object of the
received payload with only the designated port field overwritten (the
`d2c_port` of the request by the `+ 1` derivation, the `c2d_port` of the
response by the `- 1` derivation); every other key keeps its value, and a
NUL terminator is re-appended.  Byte-for-byte preservation of the rest of
the payload does not hold, because the payload is re-serialized by
`json.dumps` (see `init_rewrite_not_byte_identical`). -/
theorem init_rewrite_field_local :
    (∀ (data : String) (d : Int) (out : String),
      rewriteInitRequest data = some (d, out) →
      ∃ obj, loadsL data.toList.dropLast = some obj ∧
        lookupField obj d2cPortKey = some (JVal.int d) ∧
        out = dumps (setField obj d2cPortKey (JVal.int (deriveProxD2c d))) ++ nulStr ∧
        lookupField (setField obj d2cPortKey (JVal.int (deriveProxD2c d))) d2cPortKey
          = some (JVal.int (d + 1)) ∧
        ∀ k, k ≠ d2cPortKey →
          lookupField (setField obj d2cPortKey (JVal.int (deriveProxD2c d))) k
            = lookupField obj k) ∧
    (∀ (data : String) (c : Int) (out : String),
      rewriteInitResponse data = some (c, out) →
      ∃ obj, loadsL data.toList.dropLast = some obj ∧
        lookupField obj c2dPortKey = some (JVal.int c) ∧
        out = dumps (setField obj c2dPortKey (JVal.int (deriveProxC2d c))) ++ nulStr ∧
        lookupField (setField obj c2dPortKey (JVal.int (deriveProxC2d c))) c2dPortKey
          = some (JVal.int (c - 1)) ∧
        ∀ k, k ≠ c2dPortKey →
          lookupField (setField obj c2dPortKey (JVal.int (deriveProxC2d c))) k
            = lookupField obj k) := by
  constructor
  · intro data d out h
    unfold rewriteInitRequest at h
    cases hL : loadsL data.toList.dropLast with
    | none => rw [hL] at h; exact absurd h (by simp)
    | some obj =>
      rw [hL] at h
      dsimp only at h
      cases hK : lookupField obj d2cPortKey with
      | none => rw [hK] at h; exact absurd h (by simp)
      | some v =>
        rw [hK] at h
        cases v with
        | str s => exact absurd h (by simp)
        | int n =>
          dsimp only at h
          simp only [Option.some.injEq, Prod.mk.injEq] at h
          obtain ⟨h1, h2⟩ := h
          subst h1
          refine ⟨obj, rfl, hK, h2.symm, ?_, ?_⟩
          · exact lookupField_setField_self obj d2cPortKey _ _ hK
          · intro k hk
            exact lookupField_setField_ne obj d2cPortKey k _ hk
  · intro data c out h
    unfold rewriteInitResponse at h
    cases hL : loadsL data.toList.dropLast with
    | none => rw [hL] at h; exact absurd h (by simp)
    | some obj =>
      rw [hL] at h
      dsimp only at h
      cases hK : lookupField obj c2dPortKey with
      | none => rw [hK] at h; exact absurd h (by simp)
      | some v =>
        rw [hK] at h
        cases v with
        | str s => exact absurd h (by simp)
        | int n =>
          dsimp only at h
          simp only [Option.some.injEq, Prod.mk.injEq] at h
          obtain ⟨h1, h2⟩ := h
          subst h1
          refine ⟨obj, rfl, hK, h2.symm, ?_, ?_⟩
          · exact lookupField_setField_self obj c2dPortKey _ _ hK
          · intro k hk
            exact lookupField_setField_ne obj c2dPortKey k _ hk

/-- C1, counterexample.  The handshake request consisting of the bytes
of the compact object carrying only the `d2c_port` field, NUL-terminated, is
rewritten to a payload one byte longer: `json.dumps` inserts a space after
the colon.  Since the new port value `54322` has exactly as many digits as
the original `54321`, a rewrite that changed only the port field would have
preserved the length, so some byte outside the port field changed, refuting
"every other byte of each payload is unchanged" and the fixed-offset
round-trip reconstruction. -/
theorem init_rewrite_not_byte_identical :
    rewriteInitRequest ("\x7b\"d2c_port\":54321\x7d\x00")
        = some (54321, ("\x7b\"d2c_port\": 54322\x7d\x00")) ∧
      ("\x7b\"d2c_port\": 54322\x7d\x00" : String).length
        ≠ ("\x7b\"d2c_port\":54321\x7d\x00" : String).length :=
  ⟨by rfl, by decide⟩

/-- C1, witness for `init_rewrite_field_local` at the concrete compact
request. -/
theorem init_rewrite_field_local_witness :
    ∃ obj,
      loadsL ("\x7b\"d2c_port\":54321\x7d\x00" : String).toList.dropLast = some obj ∧
      lookupField obj d2cPortKey = some (JVal.int 54321) ∧
      ("\x7b\"d2c_port\": 54322\x7d\x00" : String)
        = dumps (setField obj d2cPortKey (JVal.int (deriveProxD2c 54321))) ++ nulStr ∧
      lookupField (setField obj d2cPortKey (JVal.int (deriveProxD2c 54321))) d2cPortKey
        = some (JVal.int (54321 + 1)) ∧
      ∀ k, k ≠ d2cPortKey →
        lookupField (setField obj d2cPortKey (JVal.int (deriveProxD2c 54321))) k
          = lookupField obj k :=
  init_rewrite_field_local.1 ("\x7b\"d2c_port\":54321\x7d\x00") 54321
    ("\x7b\"d2c_port\": 54322\x7d\x00") (by rfl)

/-- C2.  CORRECTED.  For every check after the first, the watchdog raises
its no-comms error at that check if and only if no datagram was received on
either relay listener during the one check interval (equal to `maxSilence`)
preceding the check — any datagram in either direction during that interval
prevents the failure, and the decision depends only on whether the last
activity falls inside that window.  The first check, which runs at relay
start, never fails regardless of traffic, because the one-slot deque is
initialized non-empty; at that check the behaviour agrees with treating
session start itself as the last activity, but it differs from the spec's
unqualified "fails iff no datagram was received within `maxSilence` of the
check" (see `watchdog_first_check_spec_mismatch`). -/
theorem watchdog_fails_iff_no_recent_datagram :
    ∀ (arrC2d arrD2c : Nat → Bool) (k : Nat),
      (watchdogFailsAt arrC2d arrD2c (k + 1) = true
        ↔ (arrC2d k = false ∧ arrD2c k = false)) ∧
      watchdogFailsAt arrC2d arrD2c 0 = false ∧
      watchdogFailsAt arrC2d arrD2c (k + 1) = specWatchdogFailsAt arrC2d arrD2c (k + 1) := by
  intro a b k
  refine ⟨?_, rfl, rfl⟩
  simp [watchdogFailsAt, dequeNonempty]

/-- C2, counterexample.  In a session where no datagram is ever received, the
first watchdog check does not raise, although no datagram was received
within `maxSilence` of that check — the spec-side condition
(`specWatchdogFailsAt`) says it should.  The claim's unqualified "if and
only if" therefore fails at the first check. -/
theorem watchdog_first_check_spec_mismatch :
    watchdogFailsAt (fun _ => false) (fun _ => false) 0 = false ∧
    specWatchdogFailsAt (fun _ => false) (fun _ => false) 0 = true :=
  ⟨rfl, rfl⟩

/-- C10.  CONFIRMED.  The one-slot deque is initialized holding `True`, so
the watchdog's first check (which runs as soon as the relay listeners have
started) always pops successfully, for every session including one in which
no datagram is ever received; consequently any check that does fail is a
later check, which runs only after at least one full check interval of
sleeping. -/
theorem first_watchdog_check_succeeds :
    ∀ arrC2d arrD2c : Nat → Bool,
      watchdogFailsAt arrC2d arrD2c 0 = false ∧
      ∀ k, watchdogFailsAt arrC2d arrD2c k = true → 1 ≤ k := by
  intro a b
  refine ⟨rfl, ?_⟩
  intro k hk
  cases k with
  | zero => simp [watchdogFailsAt, dequeNonempty] at hk
  | succ n => omega

/-- C10, witness: with no traffic at all, check `1` fails and indeed
`1 ≤ 1`. -/
theorem first_watchdog_check_succeeds_witness :
    watchdogFailsAt (fun _ => false) (fun _ => false) 1 = true ∧ 1 ≤ 1 :=
  ⟨rfl, (first_watchdog_check_succeeds (fun _ => false) (fun _ => false)).2 1 rfl⟩

/-- C4.  CONFIRMED.  In shared-port mode the single relay handler sends
exactly two datagrams: one untagged forward whose destination is the Sumo
endpoint when the source address equals the recorded client address and the
client endpoint otherwise — exactly one counterpart, never both and never
neither (the untagged sends of the handler are precisely that one
element) — plus one direction-tagged mirror copy to the fixed observer
sink. -/
theorem shared_port_forwards_one_counterpart :
    ∀ (clientIp sumoIp : String) (p : Int) (srcIp data : String),
      ((sharedPortHandle clientIp sumoIp p srcIp data).filter
          (fun s => decide (s.payload = data)))
        = [⟨data, (if srcIp = clientIp then sumoIp else clientIp), p⟩] ∧
      sharedPortHandle clientIp sumoIp p srcIp data =
        [⟨data, (if srcIp = clientIp then sumoIp else clientIp), p⟩,
          ⟨(if srcIp = clientIp then (">" : String) else ("<" : String)) ++ data,
            REPEAT_HOST, REPEAT_PORT⟩] := by
  intro clientIp sumoIp p srcIp data
  by_cases h : srcIp = clientIp <;>
    simp [sharedPortHandle, h, List.filter,
      gt_marker_append_ne data, lt_marker_append_ne data]

/-- C5.  CONFIRMED.  For every datagram handled by either direction of the
`proxy.py` session relay, each configured observer sink (the sinks being
pairwise distinct) receives exactly one copy carrying the direction marker
for that handler (`'>'` prepended for client-to-device, `'<'` for
device-to-client), while the first send — the forward to the real
counterpart — is byte-identical to the received datagram; every send is
either that untagged forward or a tagged sink copy. -/
theorem observer_mirroring_exactly_one_tagged_copy :
    ∀ (sumoIp clientIp : String) (cp dp : Int)
      (repeaters : List (String × Int)) (data : String) (t : String × Int),
      repeaters.Nodup → t ∈ repeaters →
      ((c2dHandle sumoIp cp repeaters data).countP
          (fun s => decide (s.destIp = t.1 ∧ s.destPort = t.2 ∧ s.payload = ">" ++ data)) = 1 ∧
        (d2cHandle clientIp dp repeaters data).countP
          (fun s => decide (s.destIp = t.1 ∧ s.destPort = t.2 ∧ s.payload = "<" ++ data)) = 1 ∧
        (c2dHandle sumoIp cp repeaters data).head? = some ⟨data, sumoIp, cp⟩ ∧
        (d2cHandle clientIp dp repeaters data).head? = some ⟨data, clientIp, dp⟩ ∧
        (∀ s ∈ c2dHandle sumoIp cp repeaters data,
          s.payload = data ∨ s.payload = ">" ++ data) ∧
        (∀ s ∈ d2cHandle clientIp dp repeaters data,
          s.payload = data ∨ s.payload = "<" ++ data)) := by
  intro sumoIp clientIp cp dp repeaters data t hnd hmem
  have hgt := (gt_marker_append_ne data).symm
  have hlt := (lt_marker_append_ne data).symm
  refine ⟨?_, ?_, rfl, rfl, ?_, ?_⟩
  · rw [c2dHandle, List.countP_cons]
    have hmap : (repeaters.map (fun t2 => (⟨">" ++ data, t2.1, t2.2⟩ : Send))).countP
        (fun s => decide (s.destIp = t.1 ∧ s.destPort = t.2 ∧ s.payload = ">" ++ data))
        = repeaters.countP (fun x => decide (x = t)) := by
      rw [List.countP_map]
      apply List.countP_congr
      intro a _
      simp [Function.comp, Prod.ext_iff, and_comm]
    rw [hmap, countP_eq_one_of_nodup_mem repeaters t hnd hmem]
    simp [hgt]
  · rw [d2cHandle, List.countP_cons]
    have hmap : (repeaters.map (fun t2 => (⟨"<" ++ data, t2.1, t2.2⟩ : Send))).countP
        (fun s => decide (s.destIp = t.1 ∧ s.destPort = t.2 ∧ s.payload = "<" ++ data))
        = repeaters.countP (fun x => decide (x = t)) := by
      rw [List.countP_map]
      apply List.countP_congr
      intro a _
      simp [Function.comp, Prod.ext_iff, and_comm]
    rw [hmap, countP_eq_one_of_nodup_mem repeaters t hnd hmem]
    simp [hlt]
  · intro s hs
    rcases List.mem_cons.mp hs with h | h
    · exact Or.inl (by rw [h])
    · right
      obtain ⟨t2, _, rfl⟩ := List.mem_map.mp h
      rfl
  · intro s hs
    rcases List.mem_cons.mp hs with h | h
    · exact Or.inl (by rw [h])
    · right
      obtain ⟨t2, _, rfl⟩ := List.mem_map.mp h
      rfl

/-- C5, witness at a one-sink configuration. -/
theorem observer_mirroring_witness :
    (c2dHandle ("192.168.2.1") 54323 [(("10.0.0.9"), 7777)] ("ab")).countP
        (fun s => decide (s.destIp = ("10.0.0.9" : String) ∧ s.destPort = 7777
          ∧ s.payload = ">" ++ ("ab"))) = 1 :=
  (observer_mirroring_exactly_one_tagged_copy ("192.168.2.1") ("192.168.2.5")
    54323 54321 [(("10.0.0.9"), 7777)] ("ab") (("10.0.0.9"), 7777)
    (by simp) (by simp)).1

/-- C6.  CORRECTED.  The proxy's externally visible ports are derived from
the negotiated values by the fixed small-constant offsets of the source
(`+ 1` on the client-announced d2c port, `- 1` on the device-announced c2d
port), and each derived port always differs from the value it was derived
from; but the two derived ports differ from each other only when the
device-announced c2d port is not the client-announced d2c port plus two
(see `proxy_ports_offset_collision`). -/
theorem proxy_ports_fixed_offsets :
    ∀ d c : Int,
      deriveProxD2c d = d + 1 ∧ deriveProxC2d c = c - 1 ∧
      deriveProxD2c d ≠ d ∧ deriveProxC2d c ≠ c ∧
      (deriveProxD2c d = deriveProxC2d c ↔ c = d + 2) := by
  intro d c
  refine ⟨rfl, rfl, ?_, ?_, ?_⟩
  · unfold deriveProxD2c
    omega
  · unfold deriveProxC2d
    omega
  · unfold deriveProxD2c deriveProxC2d
    omega

/-- C6, counterexample.  A full handshake in which the client announces
d2c port `54321` and the Sumo announces c2d port `54323` makes the
interceptor derive the same proxy port `54322` for both directions
(`prox_d2c_port = 54321 + 1` and `prox_c2d_port = 54323 - 1`), refuting
"both rewritten port values differ ... from each other". -/
theorem proxy_ports_offset_collision :
    (proxyInit ("192.168.2.1") 44444
        (some ⟨("192.168.2.10"), ("\x7b\"d2c_port\":54321\x7d\x00"),
          ("\x7b\"c2d_port\":54323\x7d\x00")⟩)).1
      = Except.ok (("192.168.2.10"), ⟨54323, 54321, 54322, 54322⟩) ∧
    (⟨54323, 54321, 54322, 54322⟩ : NegotiatedPorts).proxC2dPort
      = (⟨54323, 54321, 54322, 54322⟩ : NegotiatedPorts).proxD2cPort :=
  ⟨by rfl, rfl⟩

/-- C7.  CORRECTED.  When no client connection arrives within the 30 second
join, `proxy_init` raises the no-init (handshake timeout) error — but the
TCP listener it bound at entry is not released on that path: the only
shutdown/close of the init server lives in the handler's `tidy`, which runs
only after a completed exchange, so on timeout the bound listener stays
bound (until the whole session process is torn down by the outer
supervisor). -/
theorem init_timeout_error_and_leak :
    ∀ (sumoIp : String) (initPort : Int),
      proxyInit sumoIp initPort none
        = (Except.error (ProxyError.noInit 30), [InitAction.bindTcp initPort]) ∧
      InitAction.bindTcp initPort ∈ (proxyInit sumoIp initPort none).2 ∧
      InitAction.closeInitServer ∉ (proxyInit sumoIp initPort none).2 ∧
      InitAction.shutdownInitServer ∉ (proxyInit sumoIp initPort none).2 := by
  intro s p
  refine ⟨rfl, ?_, ?_, ?_⟩ <;> simp [proxyInit]


/-- C7, counterexample.  A concrete timeout run: the error is the no-init
timeout, the listener was bound, and no shutdown or close action occurs on
this failure path — refuting "the bound connection-oriented listener is
still released on that failure path". -/
theorem init_timeout_listener_not_closed :
    (proxyInit ("192.168.2.1") 44444 none).1 = Except.error (ProxyError.noInit 30) ∧
    InitAction.bindTcp 44444 ∈ (proxyInit ("192.168.2.1") 44444 none).2 ∧
    InitAction.closeInitServer ∉ (proxyInit ("192.168.2.1") 44444 none).2 ∧
    InitAction.shutdownInitServer ∉ (proxyInit ("192.168.2.1") 44444 none).2 := by
  refine ⟨rfl, ?_, ?_, ?_⟩ <;> decide

/-- Helper: whenever the `get_first_sumo` polling loop exits normally, its
result is the head of the accumulated-then-discovered candidate list. -/
theorem locLoop_ok_first :
    ∀ (obs : List PollObs) (acc : List (String × Int)) (r : String × Int),
      locLoop acc obs = some (Except.ok r) →
      (acc ++ (obs.map (fun o => o.newFinds)).flatten).head? = some r := by
  intro obs
  induction obs with
  | nil =>
    intro acc r h
    simp [locLoop] at h
  | cons o rest ih =>
    intro acc r h
    unfold locLoop at h
    cases hsplit : acc ++ o.newFinds with
    | cons f tail =>
      rw [hsplit] at h
      dsimp only at h
      simp only [Option.some.injEq, Except.ok.injEq] at h
      subst h
      have hassoc : acc ++ (o.newFinds ++ (rest.map (fun o => o.newFinds)).flatten)
          = (acc ++ o.newFinds) ++ (rest.map (fun o => o.newFinds)).flatten := by
        rw [List.append_assoc]
      simp only [List.map_cons, List.flatten_cons, hassoc, hsplit]
      rfl
    | nil =>
      rw [hsplit] at h
      dsimp only at h
      have hacc : acc = [] ∧ o.newFinds = [] := List.append_eq_nil.mp hsplit
      by_cases ha : o.alive = false
      · rw [if_pos ha] at h
        exact absurd h (by simp)
      · rw [if_neg ha] at h
        by_cases ht : getFirstSumoWaitTime < o.elapsedSec
        · rw [if_pos ht] at h
          exact absurd h (by simp)
        · rw [if_neg ht] at h
          have := ih [] r h
          simp only [List.map_cons, List.flatten_cons, hacc.1, hacc.2,
            List.nil_append] at this ⊢
          exact this

/-- Helper: a poll that discovers nothing, with a live browser and without
the timeout having elapsed, keeps the loop going. -/
theorem locLoop_cons_skip (o : PollObs) (rest : List PollObs)
    (h1 : o.newFinds = []) (h2 : o.alive = true)
    (h3 : o.elapsedSec ≤ getFirstSumoWaitTime) :
    locLoop [] (o :: rest) = locLoop [] rest := by
  conv_lhs => rw [locLoop]
  rw [h1]
  simp only [List.nil_append]
  rw [if_neg (by simp [h2]), if_neg (Nat.not_lt.mpr h3)]

/-- Helper: polls that discover nothing, with a live browser and without the
timeout having elapsed, keep the loop going. -/
theorem locLoop_skip_good :
    ∀ (good : List PollObs) (rest : List PollObs),
      (∀ o ∈ good, o.newFinds = [] ∧ o.alive = true ∧
        o.elapsedSec ≤ getFirstSumoWaitTime) →
      locLoop [] (good ++ rest) = locLoop [] rest := by
  intro good
  induction good with
  | nil => intro rest _; rfl
  | cons g good ih =>
    intro rest hg
    have hgood := hg g (List.mem_cons_self g good)
    have hrec := ih rest (fun o ho => hg o (List.mem_cons_of_mem g ho))
    rw [List.cons_append,
      locLoop_cons_skip g (good ++ rest) hgood.1 hgood.2.1 hgood.2.2]
    exact hrec

/-- C8.  CONFIRMED.  The device locator returns the address and handshake
port of the first candidate its listener discovered, with no disambiguation
among multiple candidates; after any number of uneventful polls it fails
with the browser-crashed error when the browse thread is observed dead
before any candidate, with the distinct no-Sumo-found error when the
timeout (of 30 seconds) has elapsed with the browser alive and no
candidate, and the two errors are distinguishable from each other. -/
theorem locator_first_candidate_and_errors :
    (∀ (obs : List PollObs) (r : String × Int),
        getFirstSumo obs = some (Except.ok r) →
        ((obs.map (fun o => o.newFinds)).flatten).head? = some r) ∧
    (∀ (good : List PollObs) (bad : PollObs) (rest : List PollObs),
        (∀ o ∈ good, o.newFinds = [] ∧ o.alive = true ∧
          o.elapsedSec ≤ getFirstSumoWaitTime) →
        bad.newFinds = [] → bad.alive = false →
        getFirstSumo (good ++ bad :: rest)
          = some (Except.error ProxyError.zeroconfCrashed)) ∧
    (∀ (good : List PollObs) (bad : PollObs) (rest : List PollObs),
        (∀ o ∈ good, o.newFinds = [] ∧ o.alive = true ∧
          o.elapsedSec ≤ getFirstSumoWaitTime) →
        bad.newFinds = [] → bad.alive = true →
        getFirstSumoWaitTime < bad.elapsedSec →
        getFirstSumo (good ++ bad :: rest)
          = some (Except.error (ProxyError.noSumoFound getFirstSumoWaitTime))) ∧
    ProxyError.zeroconfCrashed ≠ ProxyError.noSumoFound getFirstSumoWaitTime ∧
    getFirstSumoWaitTime = 30 := by
  refine ⟨?_, ?_, ?_, by simp, rfl⟩
  · intro obs r h
    have := locLoop_ok_first obs [] r h
    simpa using this
  · intro good bad rest hg hb ha
    unfold getFirstSumo
    rw [locLoop_skip_good good (bad :: rest) hg]
    conv_lhs => rw [locLoop]
    rw [hb]
    simp only [List.nil_append]
    rw [if_pos ha]
  · intro good bad rest hg hb ha ht
    unfold getFirstSumo
    rw [locLoop_skip_good good (bad :: rest) hg]
    conv_lhs => rw [locLoop]
    rw [hb]
    simp only [List.nil_append]
    rw [if_neg (by simp [ha]), if_pos ht]

/-- C8, witness: one poll with a dead browser and nothing found yields the
browser-crashed error. -/
theorem locator_errors_witness :
    getFirstSumo [⟨[], false, 0⟩] = some (Except.error ProxyError.zeroconfCrashed) :=
  locator_first_candidate_and_errors.2.1 [] ⟨[], false, 0⟩ [] (by simp) rfl rfl

/-- C3.  CONFIRMED.  In every run of `start` whose handshake stage returned
normally with a device-announced c2d port of `0`, `start` raises the
device-busy ("another client already connected") error, and `proxy_session`
— the relay and its watchdog — is never invoked. -/
theorem busy_sentinel_short_circuits :
    ∀ (env : StartEnv) (sumoIp : String) (initPort : Int)
      (clientIp : String) (ports : NegotiatedPorts),
      getFirstSumo env.locateObs = some (Except.ok (sumoIp, initPort)) →
      env.announceOk = true →
      (proxyInit sumoIp initPort env.initScenario).1 = Except.ok (clientIp, ports) →
      ports.sumoC2dPort = 0 →
      start env = some (Except.error ProxyError.anotherClientConnected) ∧
        ∀ inv, start env ≠ some (Except.ok inv) := by
  intro env sumoIp initPort clientIp ports hloc hann hinit hzero
  have hstart : start env = some (Except.error ProxyError.anotherClientConnected) := by
    unfold start
    rw [hloc]
    dsimp only
    rw [hann]
    simp only [if_true]
    rw [hinit]
    dsimp only
    rw [if_pos hzero]
  refine ⟨hstart, ?_⟩
  intro inv hcontra
  rw [hstart] at hcontra
  simp at hcontra

/-- C3, witness: a run whose device response announces c2d port `0` ends in
the device-busy error. -/
theorem busy_sentinel_witness :
    start ⟨[⟨[(("192.168.2.1"), 44444)], true, 0⟩], true,
        some ⟨("192.168.2.10"), ("\x7b\"d2c_port\":54321\x7d\x00"),
          ("\x7b\"c2d_port\":0\x7d\x00")⟩⟩
      = some (Except.error ProxyError.anotherClientConnected) :=
  (busy_sentinel_short_circuits _ ("192.168.2.1") 44444 ("192.168.2.10")
    ⟨0, 54321, -1, 54322⟩ (by rfl) rfl (by rfl) rfl).1

/-- C9.  CONFIRMED.  Whatever error any pipeline stage (or the eventual end
of the relayed session) raises, `proc_wrapper` catches it uniformly and
returns; and the outer restart loop's decision after every completed run —
caught failure or normal completion alike — is to sleep and start a fresh
session: no outcome makes it leave the loop, so the process keeps retrying
indefinitely. -/
theorem wrapper_catches_all_and_loop_restarts :
    (∀ (env : StartEnv) (fate : ProxyError) (e : ProxyError),
        runOnce env fate = some (Except.error e) →
        procWrapper env fate = some (WrapperOutcome.caught e)) ∧
    (∀ (env : StartEnv) (fate : ProxyError) (w : WrapperOutcome),
        procWrapper env fate = some w →
        mainLoopStep w = LoopDecision.restartAfterDelay) ∧
    (∀ w, mainLoopStep w ≠ LoopDecision.exitLoop) := by
  refine ⟨?_, ?_, ?_⟩
  · intro env fate e h
    unfold procWrapper
    rw [h]
  · intro env fate w _
    rfl
  · intro w h
    simp [mainLoopStep] at h

/-- C9, witness: a run that dies in discovery (dead browser) is caught by
the wrapper as that error. -/
theorem wrapper_catches_witness :
    procWrapper ⟨[⟨[], false, 0⟩], true, none⟩ (ProxyError.noComms 1)
      = some (WrapperOutcome.caught ProxyError.zeroconfCrashed) :=
  wrapper_catches_all_and_loop_restarts.1 ⟨[⟨[], false, 0⟩], true, none⟩
    (ProxyError.noComms 1) ProxyError.zeroconfCrashed (by rfl)

end SumoProxy
